import Mathlib

/-!
# Shallow embedding of the pictobox PNG and ETC1A4 codecs

This file embeds, in Lean, the parts of the pictobox image-codec library that
the specification claims talk about: the PNG chunk parser, scanline
reconstruction and chunk encoder, and the ETC1A4 compressed-texture decoder.

Byte buffers are modelled as `List Nat` (each entry one byte, `< 256` in every
reachable state).  The sequential byte cursor (`src/stream-in.ts`) is modelled
by functions that return the value read together with the remaining bytes;
reads that would make Node throw a `RangeError` (fixed-width integer reads past
the end of the buffer) return an error value, while `readBytes`, which silently
truncates via `Buffer.subarray`, is modelled as `take`/`drop` with no error.
Fallible code returns `Except CodecError`.
-/

namespace Pictobox

/-- A decoded pixel.  `alpha` is `none` when the JS object has no `alpha`
field (the `alpha?: number` optional property of the `Pixel` type). -/
structure Pixel where
  red : Nat
  green : Nat
  blue : Nat
  alpha : Option Nat
deriving DecidableEq

/-- The distinct failure modes of the embedded code.  Each constructor
corresponds to one family of `throw new Error(...)` sites (or to a Node
`RangeError`/`TypeError` raised by the runtime itself); the arguments carry
the data that the thrown message surfaces. -/
inductive CodecError where
  /-- Node `RangeError` from a fixed-width read past the end of a buffer. -/
  | outOfRangeRead
  /-- Node `RangeError` from writing a value that does not fit the width. -/
  | outOfRangeWrite (value : Nat)
  /-- Node `TypeError` from reading a field of an `undefined` array element. -/
  | missingPixel
  /-- `Invalid PNG header. Expected 0x89 high bit, got ...` -/
  | malformedHeaderHighBit (got : Nat)
  /-- `Invalid PNG header. Expected ascii PNG, got ...` -/
  | malformedHeaderAscii (got : List Nat)
  /-- `Invalid PNG header. Expected DOS line-ending, got ...` -/
  | malformedHeaderDosLineEnding (got : List Nat)
  /-- `Invalid PNG header. Expected DOS end of file byte, got ...` -/
  | malformedHeaderDosEOF (got : Nat)
  /-- `Invalid PNG header. Expected Unix line ending, got ...` -/
  | malformedHeaderUnixLineEnding (got : Nat)
  /-- `Invalid chunk. Checksum validation failed for chunk ...` — carries the
  chunk type, the expected (stored) CRC and the calculated CRC. -/
  | checksumMismatch (chunkType : List Nat) (expected calculated : Nat)
  /-- `Invalid PNG. First chunk must be IHDR, got ...` -/
  | firstChunkNotIHDR (chunkType : List Nat)
  /-- `Invalid PNG. Found image data chunk (IDAT) before palette chunk (PLTE)
  while using indexed color type` -/
  | idatBeforePalette
  /-- `Invalid PNG. Found palette chunk (PLTE) while using a grayscale color
  type` -/
  | paletteWithGrayscale
  /-- `Invalid PNG. Found multiple IHDR chunks` -/
  | multipleIHDR
  /-- `Invalid PNG. Found multiple PLTE chunks` -/
  | multiplePLTE
  /-- `Invalid chunk. Unknown critical chunk type ...` -/
  | unknownCriticalChunk (chunkType : List Nat)
  /-- `Invalid bit depth. Expected one of 1, 2, 4, 8, or 16. Got ...` -/
  | invalidBitDepth (bitDepth : Nat)
  /-- `Invalid color type. Expected one of 0, 2, 3, 4, or 6. Got ...` -/
  | invalidColorType (colorType : Nat)
  /-- `Invalid color type and both depth combination. ...` -/
  | invalidColorDepthCombination (colorType bitDepth : Nat)
  /-- `Invalid compression method. Expected 0, got ...` -/
  | invalidCompressionMethod (method : Nat)
  /-- `Invalid filter method. Expected 0, got ...` -/
  | invalidFilterMethod (method : Nat)
  /-- `Invalid interlace method. Expected either 0 (none) or 1 (Adam7) ...` -/
  | invalidInterlaceMethod (method : Nat)
  /-- `Interlaced images not currently supported` -/
  | unsupportedInterlace
  /-- `Invalid PLTE chunk. Length must be multiple of 3, got ...` -/
  | invalidPaletteLength (length : Nat)
  /-- `Invalid scanline. Unknown filter type ...` -/
  | unknownFilterType (filterType : Nat)
  /-- `Bit depth ... not currently supported` -/
  | unsupportedBitDepth (bitDepth : Nat)
  /-- `Failed to find color in palette. Ensure palette has all used colors` -/
  | colorNotInPalette
  /-- Failure reported by the external inflate/deflate collaborator. -/
  | inflateError
  /-- Node error from `Buffer.fill` with an empty source buffer. -/
  | emptyFillSource
  /-- Fuel exhaustion marker for loops that cannot terminate in the JS source
  (never reached for the inputs the validated code feeds them). -/
  | nonTermination
deriving DecidableEq

/-! ## Byte cursor (src/stream-in.ts, src/stream-out.ts) -/

/-- `StreamIn.readBytes`: `Buffer.subarray` silently truncates, so this never
fails; it returns the (possibly short) slice and the remaining bytes. -/
def readBytesP (l : List Nat) (n : Nat) : List Nat × List Nat :=
  (l.take n, l.drop n)

/-- `StreamIn.readUint8`: one byte, Node `RangeError` when none remains. -/
def readUint8x : List Nat → Except CodecError (Nat × List Nat)
  | b :: rest => .ok (b, rest)
  | [] => .error .outOfRangeRead

/-- `StreamIn.readUint16BE`: two big-endian bytes. -/
def readUint16BEx : List Nat → Except CodecError (Nat × List Nat)
  | b0 :: b1 :: rest => .ok (b0 * 256 + b1, rest)
  | _ => .error .outOfRangeRead

/-- `StreamIn.readUint32BE`: four big-endian bytes. -/
def readUint32BEx : List Nat → Except CodecError (Nat × List Nat)
  | b0 :: b1 :: b2 :: b3 :: rest =>
    .ok (((b0 * 256 + b1) * 256 + b2) * 256 + b3, rest)
  | _ => .error .outOfRangeRead

/-- The four big-endian bytes of a 32-bit value, as written by
`StreamOut.writeUint32BE`. -/
def u32be (n : Nat) : List Nat :=
  [n / 16777216 % 256, n / 65536 % 256, n / 256 % 256, n % 256]

/-- `StreamOut.writeUint32BE`: Node throws a `RangeError` when the value does
not fit in 32 bits. -/
def writeU32BEx (n : Nat) : Except CodecError (List Nat) :=
  if n < 4294967296 then .ok (u32be n) else .error (.outOfRangeWrite n)

/-- `StreamOut.writeUint8`: Node throws a `RangeError` when the value does not
fit in 8 bits. -/
def writeU8x (n : Nat) : Except CodecError (List Nat) :=
  if n < 256 then .ok [n] else .error (.outOfRangeWrite n)

/-- `StreamOut.writeUint16BE`. -/
def writeU16BEx (n : Nat) : Except CodecError (List Nat) :=
  if n < 65536 then .ok [n / 256, n % 256] else .error (.outOfRangeWrite n)

/-! ## CRC-32 -/

/-- One bit step of the reflected CRC-32 with polynomial `0xEDB88320`. -/
def crc32Step (c : Nat) : Nat :=
  if c &&& 1 = 1 then (c >>> 1) ^^^ 0xEDB88320 else c >>> 1

/-- Modelled from the spec: the external CRC-32 collaborator (the
`buffer-crc32` dependency, whose source is not part of `src/`) is "standard
CRC-32 checksum over an arbitrary byte sequence": the reflected CRC-32 with
polynomial `0xEDB88320`, initial value `0xFFFFFFFF` and final xor
`0xFFFFFFFF`, as returned by `crc32.unsigned`.  Folding one byte into the
running CRC; the byte is reduced mod 256 as `Buffer` storage guarantees. -/
def crc32Byte (crc b : Nat) : Nat :=
  (List.range 8).foldl (fun c _ => crc32Step c) (crc ^^^ b % 256)

/-- Modelled from the spec: `crc32.unsigned` over a byte sequence. -/
def crc32 (bytes : List Nat) : Nat :=
  (bytes.foldl crc32Byte 0xFFFFFFFF) ^^^ 0xFFFFFFFF

/-! ## PNG header (PNG.parseHeader) -/

/-- `PNG.parseHeader`, translated check by check.  Note that the source checks
the variable `highBit` (instead of `dosEOF` and `unixLineEnding`) in its last
two conditions, so those two error branches are unreachable once the first
check has passed; the translation preserves those conditions as written. -/
def pngParseHeader (input : List Nat) : Except CodecError (List Nat) := do
  let (highBit, r1) ← readUint8x input
  if highBit ≠ 0x89 then
    throw (.malformedHeaderHighBit highBit)
  let (asciiPNG, r2) := readBytesP r1 3
  if asciiPNG ≠ [0x50, 0x4E, 0x47] then
    throw (.malformedHeaderAscii asciiPNG)
  let (dosLineEnding, r3) := readBytesP r2 2
  if dosLineEnding ≠ [0x0D, 0x0A] then
    throw (.malformedHeaderDosLineEnding dosLineEnding)
  let (dosEOF, r4) ← readUint8x r3
  if highBit ≠ 0x89 then
    throw (.malformedHeaderDosEOF dosEOF)
  let (unixLineEnding, r5) ← readUint8x r4
  if highBit ≠ 0x89 then
    throw (.malformedHeaderUnixLineEnding unixLineEnding)
  return r5

/-! ## PNG codec state

The mutable fields of the `PNG` class that the chunk machinery reads or
writes.  Fields that are `undefined` until `parseIHDRChunk` assigns them are
modelled as `Option` when some guard compares them before assignment
(`colorType`); the remaining ones are only ever consulted after `seenIHDR`
is `true` (every path into `processSampleData` runs the first-chunk-must-be-
IHDR check first), so they are plain `Nat` with an arbitrary initial value. -/

structure PNGState where
  lastChunkType : Option (List Nat) := none
  seenIHDR : Bool := false
  seenPLTE : Bool := false
  width : Nat := 0
  height : Nat := 0
  bitDepth : Nat := 0
  colorType : Option Nat := none
  colorChannels : Nat := 0
  compressionMethod : Nat := 0
  filterMethod : Nat := 0
  interlaceMethod : Nat := 0
  palette : List Pixel := []
  compressedSampleData : List Nat := []
  pixels : List Pixel := []
deriving DecidableEq

/-- The state of a freshly constructed `PNG` object. -/
def pngInitialState : PNGState := {}

/-- The four chunk type tags of `PNG.ChunkTypes`, as byte lists. -/
def ihdrBytes : List Nat := [73, 72, 68, 82]

/-- `PLTE` as bytes. -/
def plteBytes : List Nat := [80, 76, 84, 69]

/-- `IDAT` as bytes. -/
def idatBytes : List Nat := [73, 68, 65, 84]

/-- `IEND` as bytes. -/
def iendBytes : List Nat := [73, 69, 78, 68]

/-! ## PNG field validators -/

/-- `PNG.validateBitDepth`. -/
def pngValidateBitDepth (bd : Nat) : Except CodecError Unit :=
  if bd ≠ 1 ∧ bd ≠ 2 ∧ bd ≠ 4 ∧ bd ≠ 8 ∧ bd ≠ 16 then
    .error (.invalidBitDepth bd)
  else .ok ()

/-- `PNG.validateColorType` (which also reads `this.bitDepth`). -/
def pngValidateColorType (ct bd : Nat) : Except CodecError Unit :=
  if ct ≠ 0 ∧ ct ≠ 2 ∧ ct ≠ 3 ∧ ct ≠ 4 ∧ ct ≠ 6 then
    .error (.invalidColorType ct)
  else if ct = 3 ∧ bd = 16 then .error (.invalidColorDepthCombination ct bd)
  else if ct = 4 ∧ bd = 1 then .error (.invalidColorDepthCombination ct bd)
  else if ct = 4 ∧ bd = 2 then .error (.invalidColorDepthCombination ct bd)
  else if ct = 4 ∧ bd = 4 then .error (.invalidColorDepthCombination ct bd)
  else if ct = 2 ∧ bd = 1 then .error (.invalidColorDepthCombination ct bd)
  else if ct = 2 ∧ bd = 2 then .error (.invalidColorDepthCombination ct bd)
  else if ct = 2 ∧ bd = 4 then .error (.invalidColorDepthCombination ct bd)
  else if ct = 6 ∧ bd = 1 then .error (.invalidColorDepthCombination ct bd)
  else if ct = 6 ∧ bd = 2 then .error (.invalidColorDepthCombination ct bd)
  else if ct = 6 ∧ bd = 4 then .error (.invalidColorDepthCombination ct bd)
  else .ok ()

/-- `PNG.validateCompressionMethod`. -/
def pngValidateCompressionMethod (m : Nat) : Except CodecError Unit :=
  if m ≠ 0 then .error (.invalidCompressionMethod m) else .ok ()

/-- `PNG.validateFilterMethod`. -/
def pngValidateFilterMethod (m : Nat) : Except CodecError Unit :=
  if m ≠ 0 then .error (.invalidFilterMethod m) else .ok ()

/-- `PNG.validateInterlaceMethod`. -/
def pngValidateInterlaceMethod (im : Nat) : Except CodecError Unit :=
  if im ≠ 0 ∧ im ≠ 1 then .error (.invalidInterlaceMethod im)
  else if im ≠ 0 then .error .unsupportedInterlace
  else .ok ()

/-- `PNG.ColorTypeChannels` lookup table (1/3/1/2/4 channels).  Any other key
is unreachable because `validateColorType` ran first; the JS object lookup
would give `undefined` there, modelled as 0. -/
def colorTypeChannels : Nat → Nat
  | 0 => 1
  | 2 => 3
  | 3 => 1
  | 4 => 2
  | 6 => 4
  | _ => 0

/-! ## PNG chunk payload parsers -/

/-- `PNG.parseIHDRChunk`. -/
def pngParseIHDRChunk (st : PNGState) (data : List Nat) :
    Except CodecError PNGState := do
  let (width, d1) ← readUint32BEx data
  let (height, d2) ← readUint32BEx d1
  let (bitDepth, d3) ← readUint8x d2
  pngValidateBitDepth bitDepth
  let (colorType, d4) ← readUint8x d3
  pngValidateColorType colorType bitDepth
  let (compressionMethod, d5) ← readUint8x d4
  pngValidateCompressionMethod compressionMethod
  let (filterMethod, d6) ← readUint8x d5
  pngValidateFilterMethod filterMethod
  let (interlaceMethod, _) ← readUint8x d6
  pngValidateInterlaceMethod interlaceMethod
  return { st with
    width, height, bitDepth, colorType := some colorType,
    compressionMethod, filterMethod, interlaceMethod,
    colorChannels := colorTypeChannels colorType,
    seenIHDR := true }

/-- The `while (dataStream.hasData())` loop of `PNG.parsePLTEChunk`, reading
RGB triples.  The catch-all is unreachable: the length was checked to be a
multiple of 3. -/
def plteTriples : List Nat → List Pixel
  | r :: g :: b :: rest => ⟨r, g, b, none⟩ :: plteTriples rest
  | _ => []

/-- `PNG.parsePLTEChunk`.  Note the source never sets `seenPLTE`. -/
def pngParsePLTEChunk (st : PNGState) (data : List Nat) :
    Except CodecError PNGState :=
  if data.length % 3 ≠ 0 then .error (.invalidPaletteLength data.length)
  else .ok { st with palette := st.palette ++ plteTriples data }

/-! ## PNG scanline unfiltering -/

/-- `PNG.paethPredictor`, on JS numbers (integers). -/
def paethPredictor (a b c : Int) : Int :=
  let p := a + b - c
  let pa := (p - a).natAbs
  let pb := (p - b).natAbs
  let pc := (p - c).natAbs
  if pa ≤ pb ∧ pa ≤ pc then a
  else if pb ≤ pc then b
  else c

/-- `PNG.unfilterScanlineSub`.  The source allocates a zero buffer and fills
it left to right, each step reading only already-written positions; this is
modelled by growing an array with `push`. -/
def unfilterScanlineSub (scanline : List Nat) (pixelSize : Nat) : List Nat :=
  ((List.range scanline.length).foldl (fun (unf : Array Nat) i =>
    let byte := scanline.getD i 0
    let left := if i < pixelSize then 0 else unf.getD (i - pixelSize) 0
    unf.push ((byte + left) &&& 255)) #[]).toList

/-- `PNG.unfilterScanlineUp`.  `previousScanline` is `none` on the first
scanline (`null` in the source). -/
def unfilterScanlineUp (scanline : List Nat) (previousScanline : Option (List Nat)) :
    List Nat :=
  ((List.range scanline.length).foldl (fun (unf : Array Nat) i =>
    let byte := scanline.getD i 0
    let above := match previousScanline with
      | some p => p.getD i 0
      | none => 0
    unf.push ((byte + above) &&& 255)) #[]).toList

/-- `PNG.unfilterScanlineAverage` (`Math.floor` is `Nat` division). -/
def unfilterScanlineAverage (scanline : List Nat)
    (previousScanline : Option (List Nat)) (pixelSize : Nat) : List Nat :=
  ((List.range scanline.length).foldl (fun (unf : Array Nat) i =>
    let byte := scanline.getD i 0
    let left := if i < pixelSize then 0 else unf.getD (i - pixelSize) 0
    let above := match previousScanline with
      | some p => p.getD i 0
      | none => 0
    unf.push ((byte + (left + above) / 2) &&& 255)) #[]).toList

/-- `PNG.unfilterScanlinePaeth`. -/
def unfilterScanlinePaeth (scanline : List Nat)
    (previousScanline : Option (List Nat)) (pixelSize : Nat) : List Nat :=
  ((List.range scanline.length).foldl (fun (unf : Array Nat) i =>
    let byte := scanline.getD i 0
    let left := if i < pixelSize then 0 else unf.getD (i - pixelSize) 0
    let above := match previousScanline with
      | some p => p.getD i 0
      | none => 0
    let upperLeft := match previousScanline with
      | some p => if i < pixelSize then 0 else p.getD (i - pixelSize) 0
      | none => 0
    unf.push ((((byte : Int) + paethPredictor left above upperLeft).toNat) &&& 255))
    #[]).toList

/-! ## PNG sample decoding (PNG.parseScanline / PNG.readSample) -/

/-- `PNG.readSample`: one byte at bit depth 8, two big-endian bytes at bit
depth 16, an error otherwise. -/
def pngReadSample (bd : Nat) (stream : List Nat) :
    Except CodecError (Nat × List Nat) :=
  if bd = 8 then readUint8x stream
  else if bd = 16 then readUint16BEx stream
  else .error (.unsupportedBitDepth bd)

/-- The `while (scanlineStream.hasData())` loop of `PNG.parseScanline`.
`fuel` bounds the iteration count; for the five validated color types every
iteration consumes at least one byte, so `fuel = stream length` never runs
out.  For any other color type the JS loop reads nothing and never
terminates, which surfaces here as `nonTermination`. -/
def pngParseScanlineLoop (ct bd : Nat) (palette : List Pixel) :
    Nat → List Nat → Except CodecError (List Pixel)
  | _, [] => .ok []
  | 0, _ :: _ => .error .nonTermination
  | fuel + 1, stream@(_ :: _) =>
    match ct with
    | 0 => do
      let (color, r1) ← pngReadSample bd stream
      let rest ← pngParseScanlineLoop 0 bd palette fuel r1
      return ⟨color, color, color, none⟩ :: rest
    | 2 => do
      let (red, r1) ← pngReadSample bd stream
      let (green, r2) ← pngReadSample bd r1
      let (blue, r3) ← pngReadSample bd r2
      let rest ← pngParseScanlineLoop 2 bd palette fuel r3
      return ⟨red, green, blue, none⟩ :: rest
    | 3 => do
      let (paletteIndex, r1) ← pngReadSample bd stream
      let pixel : Pixel := match palette.get? paletteIndex with
        | some color => ⟨color.red, color.green, color.blue, none⟩
        | none => ⟨0, 0, 0, none⟩
      let rest ← pngParseScanlineLoop 3 bd palette fuel r1
      return pixel :: rest
    | 4 => do
      let (color, r1) ← pngReadSample bd stream
      let (alpha, r2) ← pngReadSample bd r1
      let rest ← pngParseScanlineLoop 4 bd palette fuel r2
      return ⟨color, color, color, some alpha⟩ :: rest
    | 6 => do
      let (red, r1) ← pngReadSample bd stream
      let (green, r2) ← pngReadSample bd r1
      let (blue, r3) ← pngReadSample bd r2
      let (alpha, r4) ← pngReadSample bd r3
      let rest ← pngParseScanlineLoop 6 bd palette fuel r4
      return ⟨red, green, blue, some alpha⟩ :: rest
    | _ =>
      -- The JS `switch` has no matching case: the loop pushes the
      -- zero-initialized pixel forever without consuming input.
      do
      let rest ← pngParseScanlineLoop ct bd palette fuel stream
      return ⟨0, 0, 0, none⟩ :: rest

/-- `PNG.parseScanline`: decode one reconstructed scanline into pixels. -/
def pngParseScanline (ct bd : Nat) (palette : List Pixel)
    (scanline : List Nat) : Except CodecError (List Pixel) :=
  pngParseScanlineLoop ct bd palette scanline.length scanline

/-! ## PNG sample-data processing (PNG.processSampleData) -/

/-- The `while (dataStream.hasData())` loop of `PNG.processSampleData`: slice
one scanline, unfilter it with the previous reconstructed scanline, decode its
pixels, and continue.  Every iteration consumes at least one byte (the filter
tag), so `fuel = data length` suffices. -/
def pngProcessScanlines (ct bd : Nat) (palette : List Pixel)
    (pixelSize scanlineSize : Nat) :
    Nat → Option (List Nat) → List Nat → Except CodecError (List Pixel)
  | _, _, [] => .ok []
  | 0, _, _ :: _ => .error .nonTermination
  | fuel + 1, previousScanline, stream@(_ :: _) => do
    let (scanlineBytes, rest) := readBytesP stream scanlineSize
    let (filterType, s1) ← readUint8x scanlineBytes
    let (filteredLine, _) := readBytesP s1 (scanlineSize - 1)
    let unfilteredScanline ← match filterType with
      | 0 => pure filteredLine
      | 1 => pure (unfilterScanlineSub filteredLine pixelSize)
      | 2 => pure (unfilterScanlineUp filteredLine previousScanline)
      | 3 => pure (unfilterScanlineAverage filteredLine previousScanline pixelSize)
      | 4 => pure (unfilterScanlinePaeth filteredLine previousScanline pixelSize)
      | t => throw (.unknownFilterType t)
    let linePixels ← pngParseScanline ct bd palette unfilteredScanline
    let restPixels ← pngProcessScanlines ct bd palette pixelSize scanlineSize
      fuel (some unfilteredScanline) rest
    return linePixels ++ restPixels

/-- `PNG.processSampleData`.  The zlib inflate codec is an external
collaborator and is passed in as a function.  `pixelSize` uses `Nat`
division; for the supported bit depths (8 and 16) this agrees with the JS
floating-point division, and sub-byte depths error out in `readSample`. -/
def pngProcessSampleData (inflate : List Nat → Except CodecError (List Nat))
    (st : PNGState) : Except CodecError PNGState := do
  let decompressed ← inflate st.compressedSampleData
  let pixelSize := st.colorChannels * st.bitDepth / 8
  let scanlineSize := 1 + pixelSize * st.width
  let newPixels ← pngProcessScanlines (st.colorType.getD 0) st.bitDepth
    st.palette pixelSize scanlineSize decompressed.length none decompressed
  return { st with pixels := st.pixels ++ newPixels }

/-! ## PNG chunk reading (PNG.readChunk) -/

/-- The body of `PNG.readChunk` after the four frame reads: the CRC check,
the structural-ordering checks, the ancillary-chunk skip and the dispatch
`switch`, in source order.  Returns the updated state and the bytes that
follow the chunk. -/
def pngHandleChunk (inflate : List Nat → Except CodecError (List Nat))
    (st : PNGState) (type data : List Nat) (expectedCRC : Nat)
    (rest : List Nat) : Except CodecError (PNGState × List Nat) :=
  let calculatedCRC := crc32 (type ++ data)
  if calculatedCRC ≠ expectedCRC then
    .error (.checksumMismatch type expectedCRC calculatedCRC)
  else if ¬st.seenIHDR ∧ type ≠ ihdrBytes then
    .error (.firstChunkNotIHDR type)
  else if st.seenIHDR ∧ st.colorType = some 3 ∧ ¬st.seenPLTE ∧ type = idatBytes then
    .error .idatBeforePalette
  else if st.seenIHDR ∧ (st.colorType = some 0 ∨ st.colorType = some 4) ∧
      type = plteBytes then
    .error .paletteWithGrayscale
  else if st.seenIHDR ∧ type = ihdrBytes then
    .error .multipleIHDR
  else if st.seenPLTE ∧ type = plteBytes then
    .error .multiplePLTE
  else if (match type.head? with
      | some b => b < 65 || b > 90
      | none => false : Bool) then
    -- Ancillary chunks are skipped.
    .ok ({ st with lastChunkType := some type }, rest)
  else if type = ihdrBytes then do
    let st1 ← pngParseIHDRChunk st data
    .ok ({ st1 with lastChunkType := some type }, rest)
  else if type = plteBytes then do
    let st1 ← pngParsePLTEChunk st data
    .ok ({ st1 with lastChunkType := some type }, rest)
  else if type = idatBytes then
    .ok ({ st with
           compressedSampleData := st.compressedSampleData ++ data,
           lastChunkType := some type }, rest)
  else if type = iendBytes then do
    let st1 ← pngProcessSampleData inflate st
    .ok ({ st1 with lastChunkType := some type }, rest)
  else
    .error (.unknownCriticalChunk type)

/-- `PNG.readChunk`: read the length, type, data and CRC fields, then handle
the chunk (a failing read propagates, as the JS exception does). -/
def pngReadChunk (inflate : List Nat → Except CodecError (List Nat))
    (st : PNGState) (input : List Nat) :
    Except CodecError (PNGState × List Nat) :=
  match readUint32BEx input with
  | .error e => .error e
  | .ok (length, r1) =>
    let (type, r2) := readBytesP r1 4
    let (data, r3) := readBytesP r2 length
    match readUint32BEx r3 with
    | .error e => .error e
    | .ok (expectedCRC, r4) => pngHandleChunk inflate st type data expectedCRC r4

/-- The `while (this.readStream.hasData())` loop of `PNG.parse`.  Every
successful `readChunk` consumes at least 12 bytes, so `fuel = input length`
never runs out. -/
def pngParseChunks (inflate : List Nat → Except CodecError (List Nat)) :
    Nat → PNGState → List Nat → Except CodecError PNGState
  | _, st, [] => .ok st
  | fuel, st, input@(_ :: _) =>
    if st.lastChunkType = some iendBytes then .ok st
    else match fuel with
      | 0 => .error .nonTermination
      | fuel + 1 => do
        let (st1, rest) ← pngReadChunk inflate st input
        pngParseChunks inflate fuel st1 rest

/-- `PNG.parseFromBuffer` / `PNG.parse`: header then chunk loop. -/
def pngParse (inflate : List Nat → Except CodecError (List Nat))
    (buffer : List Nat) : Except CodecError PNGState := do
  let rest ← pngParseHeader buffer
  pngParseChunks inflate rest.length pngInitialState rest

/-! ## PNG chunk writing (PNG.writeChunk) and pixel encoding -/

/-- `PNG.writeChunk`: length, type, data, then the CRC-32 of `type ‖ data`. -/
def pngWriteChunk (type data : List Nat) : Except CodecError (List Nat) := do
  let lengthBytes ← writeU32BEx data.length
  let crcBytes ← writeU32BEx (crc32 (type ++ data))
  return lengthBytes ++ type ++ data ++ crcBytes

/-- `PNG.writeSample`. -/
def pngWriteSample (bd sample : Nat) : Except CodecError (List Nat) :=
  if bd = 8 then writeU8x sample
  else if bd = 16 then writeU16BEx sample
  else .error (.unsupportedBitDepth bd)

/-- The per-pixel `switch` of `PNG.encodePixels`: the samples appended for
one pixel.  `pixel.alpha || 0` maps an absent (or zero) alpha to 0.  A color
type outside the five cases appends nothing (the JS `switch` has no default
branch there). -/
def pngEncodePixelSamples (ct bd : Nat) (palette : List Pixel) (pixel : Pixel) :
    Except CodecError (List Nat) :=
  match ct with
  | 0 => pngWriteSample bd pixel.red
  | 2 => do
    let r ← pngWriteSample bd pixel.red
    let g ← pngWriteSample bd pixel.green
    let b ← pngWriteSample bd pixel.blue
    return r ++ g ++ b
  | 3 =>
    match palette.findIdx? (fun c =>
        c.red = pixel.red ∧ c.green = pixel.green ∧ c.blue = pixel.blue) with
    | none => .error .colorNotInPalette
    | some index => pngWriteSample bd index
  | 4 => do
    let r ← pngWriteSample bd pixel.red
    let a ← pngWriteSample bd (pixel.alpha.getD 0)
    return r ++ a
  | 6 => do
    let r ← pngWriteSample bd pixel.red
    let g ← pngWriteSample bd pixel.green
    let b ← pngWriteSample bd pixel.blue
    let a ← pngWriteSample bd (pixel.alpha.getD 0)
    return r ++ g ++ b ++ a
  | _ => .ok []

/-- The scanline-serialization loops of `PNG.encodePixels`: for each row a
filter-type byte `None = 0`, then the samples of each pixel looked up at
`y * width + x` (a missing entry is the JS `undefined`, whose field access
throws). -/
def pngEncodeScanlines (ct bd width height : Nat) (palette : List Pixel)
    (pixels : List Pixel) : Except CodecError (List Nat) :=
  (List.range height).foldlM (fun acc y =>
    (List.range width).foldlM (fun acc x => do
      let pixelIndex := y * width + x
      match pixels.get? pixelIndex with
      | none => .error .missingPixel
      | some pixel => do
        let samples ← pngEncodePixelSamples ct bd palette pixel
        return acc ++ samples)
      (acc ++ [0]))
    []

/-- The IDAT splitting loop of `PNG.encodePixels` (`i += 0xFFFFFFFF`):
slices of the compressed stream, practically always a single one. -/
def idatSlices : Nat → List Nat → List (List Nat)
  | _, [] => []
  | 0, _ :: _ => []
  | fuel + 1, l@(_ :: _) => l.take 4294967295 :: idatSlices fuel (l.drop 4294967295)

/-- `PNG.encodePixels`: serialize the scanlines, deflate them with the
external codec, and frame the result as IDAT chunks. -/
def pngEncodePixels (deflate : List Nat → Except CodecError (List Nat))
    (ct bd width height : Nat) (palette : List Pixel) (pixels : List Pixel) :
    Except CodecError (List Nat) := do
  let scanlines ← pngEncodeScanlines ct bd width height palette pixels
  let compressed ← deflate scanlines
  (idatSlices compressed.length compressed).foldlM (fun acc chunk => do
    let written ← pngWriteChunk idatBytes chunk
    return acc ++ written) []

/-- `PNG.pixelsRGBA`: four bytes per pixel, `pixel.alpha || 0` last. -/
def pngPixelsRGBA (pixels : List Pixel) : Except CodecError (List Nat) :=
  pixels.foldlM (fun acc pixel => do
    let r ← writeU8x pixel.red
    let g ← writeU8x pixel.green
    let b ← writeU8x pixel.blue
    let a ← writeU8x (pixel.alpha.getD 0)
    return acc ++ r ++ g ++ b ++ a) []

/-! ## ETC1A4 decoder

JS bitwise operators coerce their operands to signed 32-bit integers
(`ToInt32`).  The ETC1A4 color pipeline applies `<<`, `>>` and `|` to base
colors that, for a block in differential mode, can be negative, so those
operators are modelled explicitly on `Int` below. -/

/-- A decoded ETC1A4 pixel (alpha always present). -/
structure ETCPixel where
  red : Nat
  green : Nat
  blue : Nat
  alpha : Nat
deriving DecidableEq

/-- The unsigned 32-bit representative of an integer (`ToUint32`). -/
def toUint32 (x : Int) : Nat := (Int.emod x 4294967296).toNat

/-- JS `ToInt32`: reduce mod `2^32` into `[-2^31, 2^31)`. -/
def toInt32 (x : Int) : Int :=
  let m := toUint32 x
  if m < 2147483648 then (m : Int) else (m : Int) - 4294967296

/-- JS `a | b` on numbers: bitwise or of the 32-bit representations,
reinterpreted as a signed 32-bit integer. -/
def jsOr32 (a b : Int) : Int := toInt32 (Int.ofNat (toUint32 a ||| toUint32 b))

/-- JS `a << k`. -/
def jsShl32 (a : Int) (k : Nat) : Int := toInt32 (a * 2 ^ k)

/-- JS `a >> k` (arithmetic shift = floor division on the `ToInt32` value). -/
def jsShr32 (a : Int) (k : Nat) : Int := Int.fdiv (toInt32 a) (2 ^ k)

/-- `Buffer.readBigUInt64LE` at offset 0: the first eight bytes,
little-endian; Node throws a `RangeError` when fewer than eight remain. -/
def readBigUInt64LE : List Nat → Except CodecError Nat
  | b0 :: b1 :: b2 :: b3 :: b4 :: b5 :: b6 :: b7 :: _ =>
    .ok (b0 + b1 * 2 ^ 8 + b2 * 2 ^ 16 + b3 * 2 ^ 24 + b4 * 2 ^ 32 +
      b5 * 2 ^ 40 + b6 * 2 ^ 48 + b7 * 2 ^ 56)
  | _ => .error .outOfRangeRead

/-- `ETC1A4.twosComplement`: decode a 3-bit two's-complement field. -/
def twosComplement (bits : Nat) : Int :=
  if bits &&& 4 ≠ 0 then (bits : Int) - 8 else (bits : Int)

/-- `ETC1A4.clampTo255` (`Math.min(Math.max(input, 0), 255)`). -/
def clampTo255 (input : Int) : Int := min (max input 0) 255

/-- `ETC1A4.ModifierTables`, reordered for direct indexing by the two pixel
index bits. -/
def etcModifierTables : List (List Int) :=
  [[2, 8, -2, -8],
   [5, 17, -5, -17],
   [9, 29, -9, -29],
   [13, 42, -13, -42],
   [18, 60, -18, -60],
   [24, 80, -24, -80],
   [33, 106, -33, -106],
   [47, 183, -47, -183]]

/-- `ETC1A4.subblockLayouts`: 2x4 side-by-side for flip bit 0, 4x2 stacked
for flip bit 1. -/
def etcSubblockLayouts : List (List Nat) :=
  [[0, 0, 1, 1,
    0, 0, 1, 1,
    0, 0, 1, 1,
    0, 0, 1, 1],
   [0, 0, 0, 0,
    0, 0, 0, 0,
    1, 1, 1, 1,
    1, 1, 1, 1]]

/-- `ETC1A4.buildColorTable`: the four concrete colors of one sub-block. -/
def buildColorTable (modifierTable : List Int) (red green blue : Int) :
    List (List Int) :=
  modifierTable.map (fun modifier =>
    [clampTo255 (red + modifier),
     clampTo255 (green + modifier),
     clampTo255 (blue + modifier)])

/-- `ETC1A4.modifierIndex`: MSB at the pixel's bit offset in the low 16 bits,
LSB in the high 16 bits. -/
def modifierIndex (pixelIndexBits offset : Nat) : Nat :=
  let msb := (pixelIndexBits >>> offset) &&& 1
  let lsb := (pixelIndexBits >>> (16 + offset)) &&& 1
  msb ||| (lsb <<< 1)

/-- Sub-block 1's 5-bit red component in differential mode
(`(blockData >> 59n) & 0b11111n`). -/
def subBlock1R5 (blockData : Nat) : Nat := (blockData >>> 59) &&& 31

/-- Sub-block 1's 5-bit green component (`>> 51`). -/
def subBlock1G5 (blockData : Nat) : Nat := (blockData >>> 51) &&& 31

/-- Sub-block 1's 5-bit blue component (`>> 43`). -/
def subBlock1B5 (blockData : Nat) : Nat := (blockData >>> 43) &&& 31

/-- The 3-bit red delta in differential mode (`>> 56`). -/
def deltaR3 (blockData : Nat) : Nat := (blockData >>> 56) &&& 7

/-- The 3-bit green delta (`>> 48`). -/
def deltaG3 (blockData : Nat) : Nat := (blockData >>> 48) &&& 7

/-- The 3-bit blue delta (`>> 40`). -/
def deltaB3 (blockData : Nat) : Nat := (blockData >>> 40) &&& 7

/-- Sub-block 2's 5-bit component in differential mode: sub-block 1's
component plus the decoded two's-complement delta
(`subBlock1BaseR + this.twosComplement(deltaRed)`). -/
def subBlock2Base5 (base5 delta3 : Nat) : Int :=
  (base5 : Int) + twosComplement delta3

/-- `ETC1A4.decompressColorBlock`: decode one 8-byte color sub-block into
64 bytes (16 RGBA pixels in raster order within the 4x4 block, alpha fixed
at `0xFF`). -/
def decompressColorBlock (block : List Nat) : Except CodecError (List Nat) := do
  let blockData ← readBigUInt64LE block
  let flipBit := (blockData >>> 32) &&& 1
  let diffBit := (blockData >>> 33) &&& 1
  let tableCodeword1 := (blockData >>> 37) &&& 7
  let tableCodeword2 := (blockData >>> 34) &&& 7
  let pixelIndexBits := blockData &&& 0xFFFFFFFF
  let (subBlock1BaseR, subBlock1BaseG, subBlock1BaseB,
       subBlock2BaseR, subBlock2BaseG, subBlock2BaseB) :
      Int × Int × Int × Int × Int × Int :=
    if diffBit ≠ 0 then
      -- Differential mode: 5-bit base for sub-block 1, 3-bit deltas for
      -- sub-block 2, both extended to 8 bits by `(v << 3) | (v >> 2)`.
      let s1R := subBlock1R5 blockData
      let s1G := subBlock1G5 blockData
      let s1B := subBlock1B5 blockData
      let s2R := subBlock2Base5 s1R (deltaR3 blockData)
      let s2G := subBlock2Base5 s1G (deltaG3 blockData)
      let s2B := subBlock2Base5 s1B (deltaB3 blockData)
      (jsOr32 (jsShl32 s1R 3) (jsShr32 s1R 2),
       jsOr32 (jsShl32 s1G 3) (jsShr32 s1G 2),
       jsOr32 (jsShl32 s1B 3) (jsShr32 s1B 2),
       jsOr32 (jsShl32 s2R 3) (jsShr32 s2R 2),
       jsOr32 (jsShl32 s2G 3) (jsShr32 s2G 2),
       jsOr32 (jsShl32 s2B 3) (jsShr32 s2B 2))
    else
      -- Individual mode: two independent 4-bit bases per component,
      -- extended to 8 bits by `(v << 4) | v`.
      let s1R : Int := ((blockData >>> 60) &&& 15 : Nat)
      let s2R : Int := ((blockData >>> 56) &&& 15 : Nat)
      let s1G : Int := ((blockData >>> 52) &&& 15 : Nat)
      let s2G : Int := ((blockData >>> 48) &&& 15 : Nat)
      let s1B : Int := ((blockData >>> 44) &&& 15 : Nat)
      let s2B : Int := ((blockData >>> 40) &&& 15 : Nat)
      (jsOr32 (jsShl32 s1R 4) s1R,
       jsOr32 (jsShl32 s2R 4) s2R,
       jsOr32 (jsShl32 s1G 4) s1G,
       jsOr32 (jsShl32 s2G 4) s2G,
       jsOr32 (jsShl32 s1B 4) s1B,
       jsOr32 (jsShl32 s2B 4) s2B)
  let subBlock1ModifierTable := etcModifierTables.getD tableCodeword1 []
  let subBlock2ModifierTable := etcModifierTables.getD tableCodeword2 []
  let colorTables :=
    [buildColorTable subBlock1ModifierTable subBlock1BaseR subBlock1BaseG subBlock1BaseB,
     buildColorTable subBlock2ModifierTable subBlock2BaseR subBlock2BaseG subBlock2BaseB]
  let layout := etcSubblockLayouts.getD flipBit []
  return (List.range 4).foldl (fun out i =>
    let row := (layout.drop (i * 4)).take 4
    let pixel1 := (colorTables.getD (row.getD 0 0) []).getD (modifierIndex pixelIndexBits i) []
    let pixel2 := (colorTables.getD (row.getD 1 0) []).getD (modifierIndex pixelIndexBits (i + 4)) []
    let pixel3 := (colorTables.getD (row.getD 2 0) []).getD (modifierIndex pixelIndexBits (i + 8)) []
    let pixel4 := (colorTables.getD (row.getD 3 0) []).getD (modifierIndex pixelIndexBits (i + 12)) []
    out ++ (pixel1.map Int.toNat ++ [0xFF]) ++ (pixel2.map Int.toNat ++ [0xFF]) ++
      (pixel3.map Int.toNat ++ [0xFF]) ++ (pixel4.map Int.toNat ++ [0xFF])) []

/-- The per-pixel alpha extraction of `ETC1A4.decompress` (the
`alphaIndex`/`alphaByte`/`shift` lines): nibble `(pixelX*4 + pixelY)` of the
8-byte alpha sub-block, expanded to 8 bits by `alpha | (alpha << 4)`. -/
def alphaAt (alphaBlock : List Nat) (pixelX pixelY : Nat) : Nat :=
  let alphaIndex := (pixelX * 4 + pixelY) >>> 1
  let alphaByte := alphaBlock.getD alphaIndex 0
  let shift := (pixelY % 2) * 4
  let alpha := (alphaByte >>> shift) &&& 15
  alpha ||| (alpha <<< 4)

/-- `ETC1A4.decompress`: read the blocks off the stream in arrival order and
write each decoded 4x4 block into a raster buffer of `width*height*4` bytes
(still in arrival order; descrambling happens afterwards).  The buffer is an
`Array Nat`; out-of-range writes are dropped, as `Uint8Array` stores do. -/
def etc1a4Decompress (width height : Nat) (input : List Nat) :
    Except CodecError (Array Nat) := do
  let blocksPerRow := width / 4
  let blocksPerColumn := height / 4
  let imageSize := width * height
  -- JS `imageSize / (blocksPerRow * blocksPerColumn)`; `Nat` division
  -- agrees whenever width and height are multiples of 4 (a fractional or
  -- infinite JS block size never equals 16 and reads no block anyway).
  let blockSize := imageSize / (blocksPerRow * blocksPerColumn)
  let hasAlpha := blockSize = 16
  let init : Array Nat := Array.mkArray (imageSize * 4) 0
  let result ← (List.range blocksPerRow).foldlM (fun acc blockY =>
    (List.range blocksPerColumn).foldlM (fun (acc : Array Nat × List Nat) blockX => do
      let (buf, stream) := acc
      let (blockData, stream1) := readBytesP stream blockSize
      let (alphaBlock, colorBlock) :=
        if hasAlpha then (blockData.take 8, blockData.drop 8)
        else (List.replicate 8 0xFF, blockData)
      let decompressedColorBlock ← decompressColorBlock colorBlock
      let buf := (List.range 4).foldl (fun buf pixelX =>
        (List.range 4).foldl (fun (buf : Array Nat) pixelY =>
          let decompressedPixelX := blockX * 4 + pixelX
          let decompressedPixelY := (blockY * 4 + pixelY) * width
          let decompressedPixelIndex := (decompressedPixelX + decompressedPixelY) * 4
          let decompressedColorIndex := (pixelX + pixelY * 4) * 4
          let red := decompressedColorBlock.getD decompressedColorIndex 0
          let green := decompressedColorBlock.getD (decompressedColorIndex + 1) 0
          let blue := decompressedColorBlock.getD (decompressedColorIndex + 2) 0
          let alpha := alphaAt alphaBlock pixelX pixelY
          ((((buf.setD decompressedPixelIndex red).setD
            (decompressedPixelIndex + 1) green).setD
            (decompressedPixelIndex + 2) blue).setD
            (decompressedPixelIndex + 3) alpha)) buf) buf
      return (buf, stream1)) acc) (init, input)
  return result.1

/-- `ETC1A4.getTileScrambledOrder`: the arrival-order-to-raster-order
permutation table, generated by the counter-pairing loop.  The running
numbers are `Int` (the JS numbers could in principle go negative). -/
def getTileScrambledOrder (blocksPerRow blocksPerColumn : Nat) : List Int :=
  ((List.range (blocksPerRow * blocksPerColumn)).foldl
    (fun (acc : List Int × Nat × Nat × Int × Int) tile =>
      let (table, baseAccumulator, rowAccumulator, baseNumber, rowNumber) := acc
      let (rowAccumulator, baseNumber, rowNumber) :=
        if tile % blocksPerRow = 0 ∧ tile > 0 then
          if rowAccumulator < 1 then
            (rowAccumulator + 1, rowNumber + 2, rowNumber + 2)
          else
            (0, baseNumber - 2, baseNumber - 2)
        else (rowAccumulator, baseNumber, rowNumber)
      let table := table ++ [baseNumber]
      let (baseAccumulator, baseNumber) :=
        if baseAccumulator < 1 then (baseAccumulator + 1, baseNumber + 1)
        else (0, baseNumber + 3)
      (table, baseAccumulator, rowAccumulator, baseNumber, rowNumber))
    ([], 0, 0, 0, 0)).1

/-- One `descrambled.fill(src, outputOffset, outputOffset + 4)` call: copy
the 4-byte source cyclically into the destination range (Node throws when
the source buffer is empty). -/
def bufFill4 (dest : Array Nat) (outputOffset : Nat) (src : List Nat) :
    Except CodecError (Array Nat) :=
  if src.length = 0 then .error .emptyFillSource
  else .ok ((List.range 4).foldl (fun d k =>
    d.setD (outputOffset + k) (src.getD (k % src.length) 0)) dest)

/-- `ETC1A4.descramble`: copy each 4x4 block from its scrambled position
(`orderTable`) to its raster position.  `TX`/`TY` use the JS remainder and
`Math.floor` division; for the block grids produced by the decoder the table
entries are non-negative, and the (unreachable) negative case is mapped
through `Int.toNat`. -/
def etc1a4Descramble (width blocksPerRow blocksPerColumn : Nat)
    (scrambled : Array Nat) : Except CodecError (Array Nat) := do
  let orderTable := getTileScrambledOrder blocksPerRow blocksPerColumn
  let result ← (List.range blocksPerRow).foldlM (fun acc tileY =>
    (List.range blocksPerColumn).foldlM
      (fun (acc : Array Nat × Nat) tileX => do
        let (descrambled, i) := acc
        let entry := orderTable.getD i 0
        let tx := Int.tmod entry (blocksPerRow : Int)
        let ty := Int.fdiv (entry - tx) (blocksPerRow : Int)
        let descrambled ← (List.range 4).foldlM (fun d (y : Nat) =>
          (List.range 4).foldlM (fun (d : Array Nat) (x : Nat) => do
            let dataOffset :=
              ((tx * 4) + x + ((ty * 4 + y) * (width : Int))) * 4
            let outputOffset : Nat :=
              ((tileX * 4) + x + ((tileY * 4 + y) * width)) * 4
            let src := (scrambled.toList.drop dataOffset.toNat).take 4
            bufFill4 d outputOffset src) d) descrambled
        return (descrambled, i + 1)) acc)
    (Array.mkArray scrambled.size 0, 0)
  return result.1

/-- The pixel-grouping loop of `ETC1A4.parse` (`for i += 4` with RGBA
destructuring).  A tail shorter than four bytes never occurs: the
descrambled buffer's length is `width*height*4`. -/
def etcGroupPixels : List Nat → List ETCPixel
  | r :: g :: b :: a :: rest => ⟨r, g, b, a⟩ :: etcGroupPixels rest
  | _ => []

/-- `ETC1A4.parseFromBuffer` / `ETC1A4.parse`: decompress, descramble, then
group the RGBA bytes into pixels.  `width`/`height` are fields the caller
set beforehand. -/
def etc1a4Parse (width height : Nat) (buffer : List Nat) :
    Except CodecError (List ETCPixel) := do
  let decompressed ← etc1a4Decompress width height buffer
  let descrambled ← etc1a4Descramble width (width / 4) (height / 4) decompressed
  return etcGroupPixels descrambled.toList

/-! ## Specification-side definitions

These two definitions follow the words of the specification (not the
source); they exist to be compared against the source-derived definitions
in refinement statements about the ETC1A4 alpha sub-block. -/

/-- The 16-nibble sequence of an 8-byte alpha sub-block, low nibble of each
byte first: nibble `position` is the low or high half of byte
`position / 2`. -/
def etcAlphaNibble (alphaBlock : List Nat) (position : Nat) : Nat :=
  (alphaBlock.getD (position / 2) 0 >>> ((position % 2) * 4)) &&& 15

/-- Expansion of a 4-bit nibble to 8 bits: `(nibble << 4) | nibble`. -/
def nibbleExpand (n : Nat) : Nat := (n <<< 4) ||| n

/-- A chunk as laid on the wire: `u32BE length ‖ type ‖ data ‖ u32BE crc`. -/
def frameChunk (type data : List Nat) (crcVal : Nat) : List Nat :=
  u32be data.length ++ type ++ data ++ u32be crcVal

/-! # Theorems -/

/-- `x &&& 255 = x % 256`. -/
theorem and255_eq_mod (x : Nat) : x &&& 255 = x % 256 :=
  Nat.and_pow_two_sub_one_eq_mod x 8

/-- Reading back four big-endian bytes recovers any 32-bit value. -/
theorem readUint32BEx_u32be (n : Nat) (rest : List Nat) (h : n < 4294967296) :
    readUint32BEx (u32be n ++ rest) = .ok (n, rest) := by
  simp only [u32be, List.cons_append, List.nil_append, readUint32BEx]
  refine congrArg Except.ok (Prod.ext ?_ rfl)
  show (((n / 16777216 % 256) * 256 + n / 65536 % 256) * 256 + n / 256 % 256) * 256 +
    n % 256 = n
  omega

/-- The CRC-32 state stays below `2^32` through one step. -/
theorem crc32Step_lt (c : Nat) (h : c < 4294967296) : crc32Step c < 4294967296 := by
  unfold crc32Step
  have h1 : c >>> 1 < 4294967296 := by
    rw [Nat.shiftRight_eq_div_pow]
    omega
  split
  · exact Nat.xor_lt_two_pow (n := 32) h1 (by norm_num)
  · exact h1

/-- The CRC-32 state stays below `2^32` through one byte. -/
theorem crc32Byte_lt (crc b : Nat) (h : crc < 4294967296) :
    crc32Byte crc b < 4294967296 := by
  unfold crc32Byte
  have h0 : crc ^^^ b % 256 < 4294967296 :=
    Nat.xor_lt_two_pow (n := 32) h (by have := Nat.mod_lt b (y := 256); omega)
  simp only [List.range_succ, List.foldl_append, List.foldl_cons, List.foldl_nil,
    List.range_zero]
  exact crc32Step_lt _ (crc32Step_lt _ (crc32Step_lt _ (crc32Step_lt _
    (crc32Step_lt _ (crc32Step_lt _ (crc32Step_lt _ (crc32Step_lt _ h0)))))))

/-- The CRC-32 of any byte sequence fits in 32 bits. -/
theorem crc32_lt (bytes : List Nat) : crc32 bytes < 4294967296 := by
  unfold crc32
  refine Nat.xor_lt_two_pow (n := 32) ?_ (by norm_num)
  have inv : ∀ (l : List Nat) (acc : Nat), acc < 4294967296 →
      l.foldl crc32Byte acc < 4294967296 := by
    intro l
    induction l with
    | nil => intro acc h; simpa using h
    | cons b t ih =>
      intro acc h
      simpa using ih (crc32Byte acc b) (crc32Byte_lt acc b h)
  exact inv bytes 0xFFFFFFFF (by norm_num)

/-- Reading a framed chunk always reaches the chunk handler with the framed
fields. -/
theorem pngReadChunk_frame (inflate : List Nat → Except CodecError (List Nat))
    (st : PNGState) (type data : List Nat) (crcVal : Nat) (rest : List Nat)
    (htype : type.length = 4) (hdata : data.length < 4294967296)
    (hcrc : crcVal < 4294967296) :
    pngReadChunk inflate st (frameChunk type data crcVal ++ rest) =
      pngHandleChunk inflate st type data crcVal rest := by
  unfold frameChunk
  simp only [List.append_assoc]
  simp only [pngReadChunk, readUint32BEx_u32be data.length _ hdata, readBytesP,
    List.take_left' htype, List.drop_left' htype, List.take_left, List.drop_left,
    readUint32BEx_u32be crcVal rest hcrc]

/-- C1: the corrupt 8-byte prefix that matches the PNG magic only in its
first six bytes. -/
def badMagic : List Nat := [0x89, 0x50, 0x4E, 0x47, 0x0D, 0x0A, 0x00, 0x00]

/-- C1 (code bug): a buffer whose first six bytes match the PNG signature
but whose DOS-EOF byte and final LF byte are wrong is ACCEPTED by
`PNG.parseHeader` (and a file consisting of just these eight bytes parses
without any error), because the last two header checks test the already
validated `highBit` variable instead of the bytes just read.  The claim —
and the unreachable error branches of the source itself — say such a buffer
must be rejected with a malformed-header error. -/
theorem C1_parseHeader_accepts_corrupt_trailer
    (inflate : List Nat → Except CodecError (List Nat)) :
    pngParseHeader badMagic = .ok [] ∧
    pngParse inflate badMagic = .ok pngInitialState := by
  constructor
  · rfl
  · rfl

/-- C3 demonstration alpha sub-block: nibble 1 (the high nibble of byte 0)
is `0xF`, every other nibble is 0. -/
def demoAlphaBlock : List Nat := [0xF0, 0, 0, 0, 0, 0, 0, 0]

/-- C3 counterexample: the decoded alpha of the pixel at row 0, column 1 is
not the expansion of nibble `y*4 + x = 1` — the alpha sub-block is not read
in raster order. -/
theorem C3_alpha_not_raster_order :
    ¬ (alphaAt demoAlphaBlock 1 0 =
        nibbleExpand (etcAlphaNibble demoAlphaBlock (0 * 4 + 1))) := by
  decide

/-- C3 (amended): the decoder assigns alpha nibbles in column-major order
within the 4x4 block — the pixel at row `y`, column `x` gets nibble
`x*4 + y` of the sub-block, expanded to 8 bits by `(n << 4) | n`. -/
theorem C3_alpha_column_major (alphaBlock : List Nat) (x y : Nat) :
    alphaAt alphaBlock x y = nibbleExpand (etcAlphaNibble alphaBlock (x * 4 + y)) := by
  unfold alphaAt etcAlphaNibble nibbleExpand
  have hmod : (x * 4 + y) % 2 = y % 2 := by omega
  rw [Nat.shiftRight_eq_div_pow, pow_one, hmod, Nat.lor_comm]

/-- C4: `paethPredictor` returns whichever of `a`, `b`, `c` is nearest to
`p = a + b - c`, breaking ties in favor of `a`, then `b`, then `c`; in
particular `a = b = c` yields `a`. -/
theorem C4_paeth_characterization (a b c : Int) :
    ((a + b - c - a).natAbs ≤ (a + b - c - b).natAbs ∧
        (a + b - c - a).natAbs ≤ (a + b - c - c).natAbs →
      paethPredictor a b c = a) ∧
    ((a + b - c - b).natAbs < (a + b - c - a).natAbs ∧
        (a + b - c - b).natAbs ≤ (a + b - c - c).natAbs →
      paethPredictor a b c = b) ∧
    ((a + b - c - c).natAbs < (a + b - c - a).natAbs ∧
        (a + b - c - c).natAbs < (a + b - c - b).natAbs →
      paethPredictor a b c = c) ∧
    (a = b → b = c → paethPredictor a b c = a) := by
  refine ⟨fun h => ?_, fun h => ?_, fun h => ?_, fun hab hbc => ?_⟩
  · simp only [paethPredictor]
    split_ifs
    all_goals omega
  · simp only [paethPredictor]
    split_ifs <;> omega
  · simp only [paethPredictor]
    split_ifs <;> omega
  · subst hab; subst hbc
    simp only [paethPredictor]
    split_ifs <;> omega

/-- C4 witness: the all-equal tie resolves to the first argument. -/
theorem C4_witness : paethPredictor 5 5 5 = 5 :=
  (C4_paeth_characterization 5 5 5).1 (by decide)

/-- C8: the 3-bit two's-complement decoder maps `0..7` exactly onto
`{-4..3}` (bit 2 set means `value - 8`, otherwise the value itself), every
such delta is attainable, and in differential mode sub-block 2's 5-bit red
component is sub-block 1's plus that delta. -/
theorem C8_twos_complement_delta :
    (∀ bits, bits < 8 →
      (bits &&& 4 = 0 → twosComplement bits = (bits : Int)) ∧
      (bits &&& 4 ≠ 0 → twosComplement bits = (bits : Int) - 8) ∧
      -4 ≤ twosComplement bits ∧ twosComplement bits ≤ 3) ∧
    (∀ v : Int, -4 ≤ v → v ≤ 3 → ∃ bits, bits < 8 ∧ twosComplement bits = v) ∧
    (∀ blockData : Nat,
      subBlock2Base5 (subBlock1R5 blockData) (deltaR3 blockData) =
        (subBlock1R5 blockData : Int) + twosComplement (deltaR3 blockData) ∧
      -4 ≤ twosComplement (deltaR3 blockData) ∧
      twosComplement (deltaR3 blockData) ≤ 3) := by
  have hrange : ∀ bits, bits < 8 →
      -4 ≤ twosComplement bits ∧ twosComplement bits ≤ 3 := by decide
  refine ⟨?_, ?_, ?_⟩
  · intro bits h
    exact ⟨fun h0 => by revert h0; revert h; revert bits; decide,
      fun h0 => by revert h0; revert h; revert bits; decide, hrange bits h⟩
  · intro v h1 h2
    interval_cases v
    · exact ⟨4, by decide⟩
    · exact ⟨5, by decide⟩
    · exact ⟨6, by decide⟩
    · exact ⟨7, by decide⟩
    · exact ⟨0, by decide⟩
    · exact ⟨1, by decide⟩
    · exact ⟨2, by decide⟩
    · exact ⟨3, by decide⟩
  · intro blockData
    have hlt : deltaR3 blockData < 8 := by
      have : deltaR3 blockData ≤ 7 := Nat.and_le_right
      omega
    exact ⟨rfl, (hrange _ hlt).1, (hrange _ hlt).2⟩

/-- C8 witness: delta field `0b100` decodes to `-4`, and the range bounds
hold for it. -/
theorem C8_witness :
    (4 &&& 4 ≠ 0 → twosComplement 4 = (4 : Int) - 8) ∧
    (-4 ≤ twosComplement 4 ∧ twosComplement 4 ≤ 3) := by
  have h := (C8_twos_complement_delta.1 4 (by decide))
  exact ⟨h.2.1, h.2.2⟩

/-- C5: every chunk the encoder emits carries, in its last four bytes, the
big-endian CRC-32 of `type ‖ data`; and the decoder rejects any framed chunk
whose stored CRC differs from that recomputation with a checksum-mismatch
error carrying the chunk type, the stored (expected) value and the
recomputed (calculated) value. -/
theorem C5_chunk_crc (inflate : List Nat → Except CodecError (List Nat))
    (st : PNGState) (type data : List Nat) (stored : Nat) (rest : List Nat)
    (htype : type.length = 4) (hdata : data.length < 4294967296)
    (hstored : stored < 4294967296) (hne : stored ≠ crc32 (type ++ data)) :
    (∃ out, pngWriteChunk type data = .ok out ∧
      out.drop (8 + data.length) = u32be (crc32 (type ++ data)) ∧
      readUint32BEx (out.drop (8 + data.length)) =
        .ok (crc32 (type ++ data), [])) ∧
    pngReadChunk inflate st (frameChunk type data stored ++ rest) =
      .error (.checksumMismatch type stored (crc32 (type ++ data))) := by
  constructor
  · have hlen : (u32be data.length ++ type ++ data).length = 8 + data.length := by
      simp only [List.length_append, u32be, List.length_cons, List.length_nil,
        htype]
    refine ⟨u32be data.length ++ type ++ data ++ u32be (crc32 (type ++ data)),
      ?_, ?_, ?_⟩
    · unfold pngWriteChunk writeU32BEx
      rw [if_pos hdata, if_pos (crc32_lt (type ++ data))]
      rfl
    · exact List.drop_left' hlen
    · rw [List.drop_left' hlen]
      have h := readUint32BEx_u32be (crc32 (type ++ data)) []
        (crc32_lt (type ++ data))
      rwa [List.append_nil] at h
  · rw [pngReadChunk_frame inflate st type data stored rest htype hdata hstored]
    simp only [pngHandleChunk]
    rw [if_pos (fun h => hne h.symm)]

/-- C5 witness: a concrete empty `IDAT` chunk with stored CRC 0. -/
theorem C5_witness :
    (∃ out, pngWriteChunk idatBytes [] = .ok out ∧
      out.drop (8 + List.length ([] : List Nat)) =
        u32be (crc32 (idatBytes ++ [])) ∧
      readUint32BEx (out.drop (8 + List.length ([] : List Nat))) =
        .ok (crc32 (idatBytes ++ []), [])) ∧
    pngReadChunk (fun l => .ok l) pngInitialState
        (frameChunk idatBytes [] 0 ++ []) =
      .error (.checksumMismatch idatBytes 0 (crc32 (idatBytes ++ []))) :=
  C5_chunk_crc (fun l => .ok l) pngInitialState idatBytes [] 0 []
    (by decide) (by decide) (by decide) (by decide)

/-- C6: with the indexed color type, an `IDAT` chunk arriving while no
`PLTE` has been seen fails with the missing-palette error; with a grayscale
color type (0 or 4), any `PLTE` chunk fails with the unexpected-palette
error. -/
theorem C6_palette_ordering (inflate : List Nat → Except CodecError (List Nat))
    (st : PNGState) (data rest : List Nat)
    (hdata : data.length < 4294967296) :
    (st.seenIHDR = true → st.colorType = some 3 → st.seenPLTE = false →
      pngReadChunk inflate st
          (frameChunk idatBytes data (crc32 (idatBytes ++ data)) ++ rest) =
        .error .idatBeforePalette) ∧
    (st.seenIHDR = true → (st.colorType = some 0 ∨ st.colorType = some 4) →
      pngReadChunk inflate st
          (frameChunk plteBytes data (crc32 (plteBytes ++ data)) ++ rest) =
        .error .paletteWithGrayscale) := by
  constructor
  · intro hIHDR hCT hPLTE
    rw [pngReadChunk_frame inflate st idatBytes data _ rest rfl hdata
      (crc32_lt _)]
    simp only [pngHandleChunk]
    rw [if_neg (by simp), if_neg (by simp [hIHDR]),
      if_pos ⟨by simp [hIHDR], hCT, by simp [hPLTE], trivial⟩]
  · intro hIHDR hCT
    rw [pngReadChunk_frame inflate st plteBytes data _ rest rfl hdata
      (crc32_lt _)]
    simp only [pngHandleChunk]
    have h3 : ¬(st.seenIHDR = true ∧ st.colorType = some 3 ∧
        ¬st.seenPLTE = true ∧ plteBytes = idatBytes) := by
      intro h
      have := h.2.2.2
      simp [plteBytes, idatBytes] at this
    rw [if_neg (by simp), if_neg (by simp [hIHDR]), if_neg h3,
      if_pos ⟨by simp [hIHDR], hCT, trivial⟩]

/-- C6 witness: concrete states exercising both ordering errors. -/
theorem C6_witness :
    (pngReadChunk (fun l => .ok l)
        { pngInitialState with seenIHDR := true, colorType := some 3 }
        (frameChunk idatBytes [] (crc32 (idatBytes ++ [])) ++ []) =
      .error .idatBeforePalette) ∧
    (pngReadChunk (fun l => .ok l)
        { pngInitialState with seenIHDR := true, colorType := some 0 }
        (frameChunk plteBytes [] (crc32 (plteBytes ++ [])) ++ []) =
      .error .paletteWithGrayscale) :=
  ⟨(C6_palette_ordering (fun l => .ok l)
      { pngInitialState with seenIHDR := true, colorType := some 3 } [] []
      (by decide)).1 rfl rfl rfl,
   (C6_palette_ordering (fun l => .ok l)
      { pngInitialState with seenIHDR := true, colorType := some 0 } [] []
      (by decide)).2 rfl (Or.inl rfl)⟩

/-- C9: the CRC check and the first-chunk-must-be-IHDR check run before the
ancillary-chunk skip: a first chunk with an ancillary type (first type byte
not an uppercase ASCII letter) and a valid CRC fails with the
first-chunk-must-be-IHDR error rather than being skipped, and an ancillary
chunk with a wrong stored CRC fails with the checksum error in any state. -/
theorem C9_crc_and_ihdr_checks_precede_skip
    (inflate : List Nat → Except CodecError (List Nat)) (st : PNGState)
    (t0 : Nat) (trest data : List Nat) (stored : Nat) (rest : List Nat)
    (hanc : t0 < 65 ∨ t0 > 90) (htype : (t0 :: trest).length = 4)
    (hdata : data.length < 4294967296) :
    (st.seenIHDR = false →
      pngReadChunk inflate st
          (frameChunk (t0 :: trest) data (crc32 ((t0 :: trest) ++ data)) ++ rest) =
        .error (.firstChunkNotIHDR (t0 :: trest))) ∧
    (stored < 4294967296 → stored ≠ crc32 ((t0 :: trest) ++ data) →
      pngReadChunk inflate st (frameChunk (t0 :: trest) data stored ++ rest) =
        .error (.checksumMismatch (t0 :: trest) stored
          (crc32 ((t0 :: trest) ++ data)))) := by
  have hne : (t0 :: trest) ≠ ihdrBytes := by
    intro he
    simp only [ihdrBytes, List.cons.injEq] at he
    omega
  constructor
  · intro hIHDR
    rw [pngReadChunk_frame inflate st (t0 :: trest) data _ rest htype hdata
      (crc32_lt _)]
    simp only [pngHandleChunk]
    rw [if_neg (by simp), if_pos ⟨by simp [hIHDR], hne⟩]
  · intro hstored hnecrc
    rw [pngReadChunk_frame inflate st (t0 :: trest) data stored rest htype
      hdata hstored]
    simp only [pngHandleChunk]
    rw [if_pos (fun h => hnecrc h.symm)]

/-- Indexed color type at bit depth 8: the scanline loop never fails and
decodes each byte through the palette, an out-of-range index falling back to
the zero-initialized pixel. -/
theorem parseScanlineLoop_indexed8 (palette : List Pixel) :
    ∀ (l : List Nat) (fuel : Nat), l.length ≤ fuel →
      pngParseScanlineLoop 3 8 palette fuel l =
        .ok (l.map (fun b => match palette.get? b with
          | some color => ⟨color.red, color.green, color.blue, none⟩
          | none => ⟨0, 0, 0, none⟩)) := by
  intro l
  induction l with
  | nil =>
    intro fuel _
    cases fuel <;> rfl
  | cons b t ih =>
    intro fuel hf
    cases fuel with
    | zero => simp at hf
    | succ fuel =>
      have step : pngParseScanlineLoop 3 8 palette (fuel + 1) (b :: t) =
          (pngParseScanlineLoop 3 8 palette fuel t).bind (fun rest =>
            Except.ok ((match palette.get? b with
              | some color => (⟨color.red, color.green, color.blue, none⟩ : Pixel)
              | none => ⟨0, 0, 0, none⟩) :: rest)) := rfl
      rw [step, ih fuel (by simp only [List.length_cons] at hf; omega)]
      rfl

/-- C7: during indexed-color decode at bit depth 8, a sample outside the
palette bounds yields the zero-initialized pixel (r = g = b = 0, no alpha)
instead of an error, and the scanline still decodes one pixel for every
sample. -/
theorem C7_oob_palette_index_zero_pixel (palette : List Pixel)
    (scanline : List Nat) (i s : Nat)
    (hget : scanline.get? i = some s) (hoob : palette.length ≤ s) :
    ∃ out, pngParseScanline 3 8 palette scanline = .ok out ∧
      out.length = scanline.length ∧ out.get? i = some ⟨0, 0, 0, none⟩ := by
  refine ⟨scanline.map (fun b => match palette.get? b with
      | some color => ⟨color.red, color.green, color.blue, none⟩
      | none => ⟨0, 0, 0, none⟩), ?_, ?_, ?_⟩
  · exact parseScanlineLoop_indexed8 palette scanline scanline.length le_rfl
  · exact List.length_map scanline _
  · rw [List.get?_map, hget]
    simp only [Option.map_some']
    rw [List.get?_eq_none.mpr hoob]

/-- C7 witness: sample value 1 against a one-entry palette. -/
theorem C7_witness :
    ∃ out, pngParseScanline 3 8 [⟨9, 9, 9, none⟩] [1, 0] = .ok out ∧
      out.length = ([1, 0] : List Nat).length ∧
      out.get? 0 = some ⟨0, 0, 0, none⟩ :=
  C7_oob_palette_index_zero_pixel [⟨9, 9, 9, none⟩] [1, 0] 0 1 rfl (by decide)

/-- `Buffer.readBigUInt64LE` fails on fewer than eight bytes. -/
theorem readBigUInt64LE_short (l : List Nat) (h : l.length < 8) :
    readBigUInt64LE l = .error .outOfRangeRead := by
  rcases l with _ | ⟨b0, _ | ⟨b1, _ | ⟨b2, _ | ⟨b3, _ | ⟨b4, _ | ⟨b5, _ | ⟨b6, _ | ⟨b7, t⟩⟩⟩⟩⟩⟩⟩⟩
  all_goals first
    | rfl
    | (exfalso; simp only [List.length_cons] at h; omega)

/-- A color sub-block shorter than eight bytes makes the block decoder fail
with the out-of-range read error. -/
theorem decompressColorBlock_short (block : List Nat) (h : block.length < 8) :
    decompressColorBlock block = .error .outOfRangeRead := by
  unfold decompressColorBlock
  rw [readBigUInt64LE_short block h]
  rfl

/-- A 4x4 ETC1A4 decompression reads only the first 16 input bytes. -/
theorem etc1a4Decompress_4x4_take (buffer : List Nat) :
    etc1a4Decompress 4 4 buffer = etc1a4Decompress 4 4 (buffer.take 16) := by
  have htt : (buffer.take 16).take 16 = buffer.take 16 := by
    rw [List.take_take]
    rfl
  have hrange : List.range (4 / 4) = [0] := rfl
  have hbs : (4 * 4 / (4 / 4 * (4 / 4)) : Nat) = 16 := rfl
  unfold etc1a4Decompress
  simp only [hrange, hbs, List.foldlM_cons, List.foldlM_nil, readBytesP,
    ite_true, htt]
  cases decompressColorBlock (List.drop 8 (List.take 16 buffer)) with
  | error e => rfl
  | ok dcb => rfl

/-- A 4x4 all-zero data buffer with trailing garbage decodes to sixteen
pixels of `(2, 2, 2, 0)` (individual mode, base 0, modifier table 0 offset
`+2`, alpha nibbles 0). -/
theorem etc1a4Parse_4x4_zero_extra (rest : List Nat) :
    etc1a4Parse 4 4 (List.replicate 16 0 ++ rest) =
      .ok (List.replicate 16 ⟨2, 2, 2, 0⟩) := by
  unfold etc1a4Parse
  rw [etc1a4Decompress_4x4_take, List.take_left' (by simp)]
  set_option maxRecDepth 100000 in rfl

/-- A 4x4 buffer shorter than one 16-byte block fails with the out-of-range
read error raised while reading the 64-bit color word. -/
theorem etc1a4Parse_4x4_short (buffer : List Nat) (h : buffer.length < 16) :
    etc1a4Parse 4 4 buffer = .error .outOfRangeRead := by
  have hshort : decompressColorBlock (List.drop 8 (List.take 16 buffer)) =
      .error .outOfRangeRead := by
    rw [List.take_of_length_le (by omega)]
    refine decompressColorBlock_short _ ?_
    simp only [List.length_drop]
    omega
  have hrange : List.range (4 / 4) = [0] := rfl
  have hbs : (4 * 4 / (4 / 4 * (4 / 4)) : Nat) = 16 := rfl
  unfold etc1a4Parse etc1a4Decompress
  simp only [hrange, hbs, List.foldlM_cons, List.foldlM_nil, readBytesP,
    ite_true, hshort]
  rfl

/-- C2 counterexample: for a 4x4 image the expected input size is one
16-byte block, yet a 17-byte buffer parses successfully into a fully
populated 16-pixel array — no `BufferSizeMismatch` check exists. -/
theorem C2_counterexample :
    etc1a4Parse 4 4 (List.replicate 17 0) =
      .ok (List.replicate 16 ⟨2, 2, 2, 0⟩) ∧
    (List.replicate 16 (⟨2, 2, 2, 0⟩ : ETCPixel)).length = 4 * 4 := by
  constructor
  · set_option maxRecDepth 100000 in rfl
  · rfl

/-- C2 (amended): the ETC1A4 decoder performs no buffer-size validation.
For a 4x4 image, a buffer longer than the expected 16 bytes parses
successfully — the trailing bytes are ignored and the pixel array is fully
populated — while a buffer shorter than 16 bytes fails, but with the
generic out-of-range read error from the 64-bit color-word read, not a
dedicated size check. -/
theorem C2_no_buffer_size_check :
    (∀ rest : List Nat, etc1a4Parse 4 4 (List.replicate 16 0 ++ rest) =
      .ok (List.replicate 16 ⟨2, 2, 2, 0⟩)) ∧
    (∀ buffer : List Nat, buffer.length < 16 →
      etc1a4Parse 4 4 buffer = .error .outOfRangeRead) :=
  ⟨etc1a4Parse_4x4_zero_extra, etc1a4Parse_4x4_short⟩

/-- C2 witness: one extra byte is ignored; one missing byte errors out. -/
theorem C2_witness :
    etc1a4Parse 4 4 (List.replicate 16 0 ++ [37]) =
      .ok (List.replicate 16 ⟨2, 2, 2, 0⟩) ∧
    etc1a4Parse 4 4 (List.replicate 15 0) = .error .outOfRangeRead :=
  ⟨C2_no_buffer_size_check.1 [37],
   C2_no_buffer_size_check.2 (List.replicate 15 0) (by decide)⟩

/-- C9 witness: a `tEXt` chunk as first chunk (valid CRC) and the same chunk
with stored CRC 0. -/
theorem C9_witness :
    (pngReadChunk (fun l => .ok l) pngInitialState
        (frameChunk [116, 69, 88, 116] []
          (crc32 (([116, 69, 88, 116] : List Nat) ++ [])) ++ []) =
      .error (.firstChunkNotIHDR [116, 69, 88, 116])) ∧
    (pngReadChunk (fun l => .ok l) pngInitialState
        (frameChunk [116, 69, 88, 116] [] 0 ++ []) =
      .error (.checksumMismatch [116, 69, 88, 116] 0
        (crc32 (([116, 69, 88, 116] : List Nat) ++ [])))) :=
  ⟨(C9_crc_and_ihdr_checks_precede_skip (fun l => .ok l) pngInitialState
      116 [69, 88, 116] [] 0 [] (by decide) (by decide) (by decide)).1 rfl,
   (C9_crc_and_ihdr_checks_precede_skip (fun l => .ok l) pngInitialState
      116 [69, 88, 116] [] 0 [] (by decide) (by decide) (by decide)).2
     (by decide) (by decide)⟩

/-- C10: a pixel without an `alpha` field is serialized with alpha byte 0
(fully transparent), not 255: by the RGBA and grayscale-with-alpha encoders
(shown on a 1x1 image: filter byte then samples) and by `pixelsRGBA`. -/
theorem C10_absent_alpha_serialized_as_zero (r g b : Nat)
    (hr : r < 256) (hg : g < 256) (hb : b < 256) :
    pngEncodeScanlines 6 8 1 1 [] [⟨r, g, b, none⟩] = .ok [0, r, g, b, 0] ∧
    pngEncodeScanlines 4 8 1 1 [] [⟨r, g, b, none⟩] = .ok [0, r, 0] ∧
    pngPixelsRGBA [⟨r, g, b, none⟩] = .ok [r, g, b, 0] := by
  have hrange : List.range 1 = [0] := rfl
  refine ⟨?_, ?_, ?_⟩
  · simp [pngEncodeScanlines, hrange, pngEncodePixelSamples, pngWriteSample,
      writeU8x, hr, hg, hb]
    rfl
  · simp [pngEncodeScanlines, hrange, pngEncodePixelSamples, pngWriteSample,
      writeU8x, hr, hg, hb]
    rfl
  · simp [pngPixelsRGBA, writeU8x, hr, hg, hb]
    rfl

/-- C10 witness: a concrete alpha-less pixel. -/
theorem C10_witness :
    pngEncodeScanlines 6 8 1 1 [] [⟨10, 20, 30, none⟩] =
      .ok [0, 10, 20, 30, 0] ∧
    pngEncodeScanlines 4 8 1 1 [] [⟨10, 20, 30, none⟩] = .ok [0, 10, 0] ∧
    pngPixelsRGBA [⟨10, 20, 30, none⟩] = .ok [10, 20, 30, 0] :=
  C10_absent_alpha_serialized_as_zero 10 20 30 (by decide) (by decide)
    (by decide)

end Pictobox
